import Mathlib

/-!
Shallow embedding of `src/app.py` (AWS Lambda handler generating images with
Google Gemini) and proofs about the claims of its specification.

Modelling conventions:
* Python/JSON values flowing through the handler are modelled by `JsonValue`
  (ints stand in for JSON numbers; floats are not needed by any claim).
* Python truthiness is `JsonValue.truthy` / `optStrTruthy` (empty strings,
  zero, `None`, empty containers are falsy).
* Exceptions are modelled with `Except`: `BadRequestError` and generic Python
  exceptions (`PyException`, which also carries the duck-typed optional
  attributes `code`, `status_code`, `status`, `http_status`, `details`,
  `trace_id` that `app.py` probes with `getattr`).
* The two collaborators (SSM secret store, Gemini generation call) and the
  environment variable are an explicit `World` input; `lambda_handler`
  additionally returns the updated module-level key cache, the number of SSM
  calls performed, and a record of the `generate_content` call (if any), so
  that temporal claims about side effects can be stated.
* `json.dumps` is kept abstract: `ResponseEnvelope.body` holds the payload
  value handed to `json.dumps`, not the serialized string.
-/

namespace GeminiApp

/-- JSON / Python values as they flow through the handler. -/
inductive JsonValue where
  | null
  | bool (b : Bool)
  | num (n : Int)
  | str (s : String)
  | arr (elems : List JsonValue)
  | obj (fields : List (String × JsonValue))

/-- Python truthiness of a value (`if not prompt`, `a or b`, ...). -/
def JsonValue.truthy : JsonValue → Bool
  | .null => false
  | .bool b => b
  | .num n => n != 0
  | .str s => s != ""
  | .arr elems => !elems.isEmpty
  | .obj fields => !fields.isEmpty

/-- `dict.get` style lookup on an object; `none` when the value is not an
object (in Python that path raises `AttributeError` instead, see `dictGet`). -/
def JsonValue.lookup (v : JsonValue) (key : String) : Option JsonValue :=
  match v with
  | .obj fields => fields.lookup key
  | _ => none

/-- Python type name, used to reproduce `AttributeError` messages. -/
def pyTypeName : JsonValue → String
  | .null => "NoneType"
  | .bool _ => "bool"
  | .num _ => "int"
  | .str _ => "str"
  | .arr _ => "list"
  | .obj _ => "dict"

/-- Truthiness of an `Optional[str]` (`if _CACHED_API_KEY`, `if not api_key`). -/
def optStrTruthy : Option String → Bool
  | some s => s != ""
  | none => false

/-- Python `str.strip()`: drop leading and trailing whitespace.  Implemented
structurally over the character list so that it evaluates by `rfl`/`decide`
(the ASCII whitespace classes of Lean and Python agree on every input used
here). -/
def pyStrip (s : String) : String :=
  ⟨((s.data.dropWhile Char.isWhitespace).reverse.dropWhile Char.isWhitespace).reverse⟩

/-- `str.strip()` applied when the value is a string, identity otherwise
(mirrors `if isinstance(prompt, str): prompt = prompt.strip()`). -/
def trimIfStr : JsonValue → JsonValue
  | .str s => .str (pyStrip s)
  | v => v

-- Constants from app.py.

def DEFAULT_MODEL : String := "gemini-2.5-flash-image-preview"

def DEFAULT_MIME_TYPE : String := "image/png"

/-- `ImagePayload` dataclass of app.py. -/
structure ImagePayload where
  mime_type : String
  data : String
deriving DecidableEq

/-- `ImagePayload.as_dict`. -/
def ImagePayload.as_dict (p : ImagePayload) : JsonValue :=
  .obj [("mimeType", .str p.mime_type), ("data", .str p.data)]

/-- The HTTP-shaped response; `body` is the payload passed to `json.dumps`. -/
structure ResponseEnvelope where
  statusCode : Int
  headers : List (String × String)
  body : JsonValue

/-- `_build_response` of app.py. -/
def _build_response (status_code : Int) (payload : JsonValue) : ResponseEnvelope :=
  { statusCode := status_code
    headers := [("Content-Type", "application/json")]
    body := payload }

/-- A Python exception as observed by app.py: its `str(error)` message and the
duck-typed optional attributes it probes (`none` models both an absent
attribute and one of the wrong runtime type, since `isinstance` guards every
read). -/
structure PyException where
  message : String
  code : Option Int := none
  status_code : Option Int := none
  status : Option Int := none
  http_status : Option Int := none
  details : Option String := none
  trace_id : Option String := none
deriving DecidableEq

/-- `re.match(r"^(\d{3})\b", message)` on the stripped message: three ASCII
digits at the start, followed by end-of-string or a non-word character. -/
def isWordChar (c : Char) : Bool := c.isAlphanum || c == '_'

/-- The leading three-digit code of a message, if any. -/
def leadingThreeDigitCode (message : String) : Option Int :=
  match (pyStrip message).toList with
  | c₀ :: c₁ :: c₂ :: rest =>
    if c₀.isDigit && c₁.isDigit && c₂.isDigit then
      if (match rest with | [] => true | c₃ :: _ => !isWordChar c₃) then
        some (Int.ofNat ((c₀.toNat - 48) * 100 + (c₁.toNat - 48) * 10 + (c₂.toNat - 48)))
      else none
    else none
  | _ => none

/-- `_derive_status_code_from_exception` of app.py: first integer-valued
attribute among `code`, `status_code`, `status`, `http_status`, else the
leading three-digit code of the stripped message, else `None`. -/
def _derive_status_code_from_exception (error : PyException) : Option Int :=
  match error.code with
  | some v => some v
  | none =>
    match error.status_code with
    | some v => some v
    | none =>
      match error.status with
      | some v => some v
      | none =>
        match error.http_status with
        | some v => some v
        | none => leadingThreeDigitCode error.message

/-- Python `x or default` on an `Optional[int]`: `None` and `0` are falsy. -/
def pyOrInt (value : Option Int) (fallback : Int) : Int :=
  match value with
  | some v => if v = 0 then fallback else v
  | none => fallback

/-- Exceptions that can be raised inside the `try` block of `lambda_handler`:
the module-defined `BadRequestError` (caught first) or any other exception. -/
inductive Exc where
  | badRequest (message : String)
  | pyerr (error : PyException)

/-- `payload.get(key)`: returns the field (Python `None`, i.e. `.null`, when
the key is absent) on a dict, raises `AttributeError` on any other value. -/
def dictGet (payload : JsonValue) (key : String) : Except Exc JsonValue :=
  match payload with
  | .obj fields => .ok ((fields.lookup key).getD .null)
  | v => .error (.pyerr
      { message := "\x27" ++ pyTypeName v ++ "\x27 object has no attribute \x27get\x27" })

/-- The inbound `body` field of the event: absent or not a string, the empty
string, a non-empty string that is not valid JSON, or a non-empty string that
`json.loads` parses to `value`.  Every Python value of the field falls in
exactly one of these classes. -/
inductive BodyField where
  | absent
  | nonString
  | emptyString
  | invalidJson
  | validJson (value : JsonValue)

/-- The inbound event: falsy (`None` or an empty dict) or carrying a body. -/
inductive Event where
  | empty
  | withBody (body : BodyField)

/-- `_parse_body` of app.py. -/
def _parse_body : Event → Except Exc JsonValue
  | .empty => .error (.badRequest "El evento de la solicitud está vacío")
  | .withBody .absent => .error (.badRequest "Formato de cuerpo no soportado")
  | .withBody .nonString => .error (.badRequest "Formato de cuerpo no soportado")
  | .withBody .emptyString => .error (.badRequest "El cuerpo de la solicitud está vacío")
  | .withBody .invalidJson => .error (.badRequest "El cuerpo de la solicitud no es un JSON válido")
  | .withBody (.validJson value) => .ok value

/-- `_extract_prompt` of app.py: `payload.get("prompt")`, strip when a string,
reject when falsy, otherwise return the (possibly non-string) value. -/
def _extract_prompt (payload : JsonValue) : Except Exc JsonValue :=
  match dictGet payload "prompt" with
  | .error e => .error e
  | .ok promptRaw =>
    let prompt := trimIfStr promptRaw
    if prompt.truthy then .ok prompt
    else .error (.badRequest "El campo \"prompt\" es obligatorio")

/-- `_resolve_model` of app.py. -/
def _resolve_model (payload : JsonValue) : Except Exc String :=
  match dictGet payload "model" with
  | .error e => .error e
  | .ok (.str s) => if pyStrip s ≠ "" then .ok (pyStrip s) else .ok DEFAULT_MODEL
  | .ok _ => .ok DEFAULT_MODEL

/-- One element of the `parts` list sent upstream (`{"text": ...}`); the text
is a `JsonValue` because `_extract_prompt` can return non-string values. -/
structure ContentPart where
  text : JsonValue

/-- Second half of `_build_content_parts`: the `isinstance`/`strip` guard on
the already-selected negative prompt value. -/
def appendNegative (prompt : JsonValue) (negative_prompt : JsonValue) : List ContentPart :=
  match negative_prompt with
  | .str s => if pyStrip s ≠ "" then [⟨prompt⟩, ⟨.str ("Evita: " ++ pyStrip s)⟩] else [⟨prompt⟩]
  | _ => [⟨prompt⟩]

/-- `_build_content_parts` of app.py:
`payload.get("negativePrompt") or payload.get("negative_prompt")`, then append
`"Evita: "` plus the stripped text when it is a non-blank string. -/
def _build_content_parts (prompt : JsonValue) (payload : JsonValue) :
    Except Exc (List ContentPart) :=
  match dictGet payload "negativePrompt" with
  | .error e => .error e
  | .ok np₁ =>
    if np₁.truthy then .ok (appendNegative prompt np₁)
    else
      match dictGet payload "negative_prompt" with
      | .error e => .error e
      | .ok np₂ => .ok (appendNegative prompt np₂)

-- Upstream (Gemini) result structures, duck-typed in app.py.

/-- The `inline_data` object of an upstream part; every attribute is optional
because app.py probes them with `getattr(..., None)`. -/
structure InlineData where
  mime_type : Option String := none
  mimeType : Option String := none
  data : Option String := none
deriving DecidableEq

/-- One part of an upstream candidate content. -/
structure UpstreamPart where
  inline_data : Option InlineData := none
  inlineData : Option InlineData := none
deriving DecidableEq

/-- The `content` object of an upstream candidate. -/
structure UpstreamContent where
  parts : Option (List UpstreamPart) := none
deriving DecidableEq

/-- One candidate of an upstream result. -/
structure UpstreamCandidate where
  content : Option UpstreamContent := none
deriving DecidableEq

/-- The raw upstream result. -/
structure GenResult where
  candidates : Option (List UpstreamCandidate) := none
deriving DecidableEq

/-- Python `x or fallback` on an optional string (empty string is falsy). -/
def pyOrStr (value : Option String) (fallback : String) : String :=
  match value with
  | some s => if s = "" then fallback else s
  | none => fallback

/-- `getattr(part, "inline_data", None) or getattr(part, "inlineData", None)`
(an inline-data object is always truthy). -/
def partInline (part : UpstreamPart) : Option InlineData :=
  match part.inline_data with
  | some d => some d
  | none => part.inlineData

/-- The image contributed by one upstream part, if any: requires a truthy
inline-data object with a truthy `data` payload; the mime type is
`inline_data.mime_type or inline_data.mimeType or DEFAULT_MIME_TYPE`. -/
def partImage (part : UpstreamPart) : Option ImagePayload :=
  match partInline part with
  | none => none
  | some idata =>
    match idata.data with
    | none => none
    | some d =>
      if d = "" then none
      else some ⟨pyOrStr idata.mime_type (pyOrStr idata.mimeType DEFAULT_MIME_TYPE), d⟩

/-- `getattr(candidate, "content", None)` then `getattr(content, "parts", None) or []`. -/
def candidateParts (candidate : UpstreamCandidate) : List UpstreamPart :=
  match candidate.content with
  | none => []
  | some content => content.parts.getD []

/-- `_extract_images` of app.py, written as the nested accumulating loops of
the source (`images.append(...)` inside `for candidate` / `for part`). -/
def _extract_images (result : GenResult) : List ImagePayload :=
  (result.candidates.getD []).foldl
    (fun images candidate =>
      (candidateParts candidate).foldl
        (fun images part =>
          match partImage part with
          | some img => images ++ [img]
          | none => images)
        images)
    []

-- Collaborators and the handler itself.

/-- Outcome of the (at most one) `ssm.get_parameter` call of an invocation:
a value, a `BotoCoreError`/`ClientError`, or a response of an unexpected
shape so that reading `response["Parameter"]["Value"]` raises a non-boto
`KeyError`. -/
inductive SsmOutcome where
  | ok (value : String)
  | botoError
  | badShape
deriving DecidableEq

/-- Outcome of the (at most one) `model.generate_content` call. -/
inductive GenOutcome where
  | ok (result : GenResult)
  | raises (error : PyException)

/-- The ambient world of one invocation: the `GOOGLE_API_KEY_PARAM`
environment variable and the two collaborators. -/
structure World where
  envParam : Option String
  ssm : SsmOutcome
  gen : GenOutcome

/-- Result of `_get_api_key`: its return value (or an uncaught exception),
the new value of the module-level `_CACHED_API_KEY`, and the number of SSM
calls performed. -/
structure KeyLookup where
  outcome : Except PyException (Option String)
  cache : Option String
  calls : Nat

/-- `_get_api_key` of app.py.  Note the `except` clause only catches
`BotoCoreError` and `ClientError`; a `KeyError` while reading the response
(`SsmOutcome.badShape`) escapes. -/
def _get_api_key (cached : Option String) (w : World) : KeyLookup :=
  if optStrTruthy cached then ⟨.ok cached, cached, 0⟩
  else
    match w.envParam with
    | none => ⟨.ok none, cached, 0⟩
    | some p =>
      if p = "" then ⟨.ok none, cached, 0⟩
      else
        match w.ssm with
        | .ok v => ⟨.ok (some v), some v, 1⟩
        | .botoError => ⟨.ok none, cached, 1⟩
        | .badShape => ⟨.error { message := "KeyError: \x27Parameter\x27" }, cached, 1⟩

/-- The single `model.generate_content(**request_kwargs)` call as issued by
`lambda_handler`: the model name passed to `genai.GenerativeModel`, the
`contents` kwarg, and the `response_mime_type` of a `generation_config`
kwarg when present (app.py never adds one). -/
structure GenCall where
  model : String
  contents : List (String × List ContentPart)
  generation_config : Option String

/-- Result of the inner `try` block: the produced response or the exception
that escaped it, plus the recorded upstream call, if one was made. -/
structure TryResult where
  outcome : Except Exc ResponseEnvelope
  genCall : Option GenCall

/-- The body of the `try` block of `lambda_handler`: parse, validate, build
the request, invoke Gemini, extract images, build the success/no-image
response. -/
def tryBlock (w : World) (event : Event) : TryResult :=
  match _parse_body event with
  | .error e => ⟨.error e, none⟩
  | .ok payload =>
    match _extract_prompt payload with
    | .error e => ⟨.error e, none⟩
    | .ok prompt =>
      match _resolve_model payload with
      | .error e => ⟨.error e, none⟩
      | .ok model_name =>
        match _build_content_parts prompt payload with
        | .error e => ⟨.error e, none⟩
        | .ok parts =>
          let call : GenCall := ⟨model_name, [("user", parts)], none⟩
          match w.gen with
          | .raises e => ⟨.error (.pyerr e), some call⟩
          | .ok result =>
            let images := _extract_images result
            if images.isEmpty then
              ⟨.ok (_build_response 502
                (.obj [("message", .str "Gemini no generó imágenes para el prompt proporcionado")])),
               some call⟩
            else
              ⟨.ok (_build_response 200
                (.obj [("model", .str model_name),
                       ("images", .arr (images.map ImagePayload.as_dict))])),
               some call⟩

/-- The error payload of the generic `except Exception` clause:
`{"error": "GeminiError", "status": ..., "message": ...}` plus `detail` when
`error.details` is a string, non-blank, and its stripped form differs from
the message, plus `traceId` when `error.trace_id` is a non-blank string. -/
def errorPayload (e : PyException) (status_code : Int) : JsonValue :=
  .obj ([("error", .str "GeminiError"),
         ("status", .num status_code),
         ("message", .str e.message)]
    ++ (match e.details with
        | some d => if pyStrip d ≠ "" ∧ pyStrip d ≠ e.message then [("detail", .str (pyStrip d))] else []
        | none => [])
    ++ (match e.trace_id with
        | some t => if pyStrip t ≠ "" then [("traceId", .str (pyStrip t))] else []
        | none => []))

/-- The `try`/`except` dispatch of `lambda_handler`: `BadRequestError` maps to
400, any other exception to `_derive_status_code_from_exception(error) or 502`
with the structured `GeminiError` payload. -/
def dispatchTry (w : World) (event : Event) : ResponseEnvelope × Option GenCall :=
  let tr := tryBlock w event
  match tr.outcome with
  | .ok resp => (resp, tr.genCall)
  | .error (.badRequest msg) =>
    (_build_response 400 (.obj [("message", .str msg)]), tr.genCall)
  | .error (.pyerr e) =>
    let status_code := pyOrInt (_derive_status_code_from_exception e) 502
    (_build_response status_code (errorPayload e status_code), tr.genCall)

/-- Full observable result of one invocation. -/
structure HandlerResult where
  outcome : Except PyException ResponseEnvelope
  cache : Option String
  ssmCalls : Nat
  genCall : Option GenCall

/-- `lambda_handler` of app.py.  `cached` is the module-level
`_CACHED_API_KEY` at entry; the returned `cache` is its value at exit.  Note
`_get_api_key` runs before the `try` block, so an exception it does not
swallow propagates to the host. -/
def lambda_handler (cached : Option String) (w : World) (event : Event) : HandlerResult :=
  let kl := _get_api_key cached w
  match kl.outcome with
  | .error e => ⟨.error e, kl.cache, kl.calls, none⟩
  | .ok apiKey =>
    if optStrTruthy apiKey then
      let rg := dispatchTry w event
      ⟨.ok rg.1, kl.cache, kl.calls, rg.2⟩
    else
      ⟨.ok (_build_response 500 (.obj [("message", .str "No se pudo obtener la API key de Gemini")])),
       kl.cache, kl.calls, none⟩

-- Convenience projections for stating claims.

/-- The HTTP status of an invocation that returned (rather than raised). -/
def respStatus (hr : HandlerResult) : Option Int :=
  match hr.outcome with
  | .ok r => some r.statusCode
  | .error _ => none

/-- A field of the JSON body of an invocation that returned. -/
def respField (hr : HandlerResult) (key : String) : Option JsonValue :=
  match hr.outcome with
  | .ok r => r.body.lookup key
  | .error _ => none

/-- Event whose body is a non-empty string parsing to a JSON object. -/
def mkEvent (fields : List (String × JsonValue)) : Event :=
  .withBody (.validJson (.obj fields))

/-- The `"prompt"` value of an object body is Python-falsy after the
string-strip step: missing, `null`, `false`, `0`, an empty array or object,
or a string that strips to the empty string. -/
def promptFalsy (fields : List (String × JsonValue)) : Prop :=
  (trimIfStr ((fields.lookup "prompt").getD .null)).truthy = false

/-- What `_resolve_model` returns on an object payload, as a pure function. -/
def resolveModelObj (fields : List (String × JsonValue)) : String :=
  match (fields.lookup "model").getD .null with
  | .str s => if pyStrip s ≠ "" then pyStrip s else DEFAULT_MODEL
  | _ => DEFAULT_MODEL

/-- What `_build_content_parts` returns on an object payload, as a pure
function. -/
def contentPartsObj (prompt : JsonValue) (fields : List (String × JsonValue)) :
    List ContentPart :=
  if ((fields.lookup "negativePrompt").getD .null).truthy then
    appendNegative prompt ((fields.lookup "negativePrompt").getD .null)
  else
    appendNegative prompt ((fields.lookup "negative_prompt").getD .null)

/-- The images array described by the spec: the concatenation, in candidate
order then part order, of the entries contributed by each part. -/
def specImagesConcat (result : GenResult) : List ImagePayload :=
  ((result.candidates.getD []).map
    (fun candidate => (candidateParts candidate).filterMap partImage)).flatten

-- Concrete fixtures used by counterexamples and witnesses.

/-- A world with a configured parameter, a working secret store, and a given
generation outcome. -/
def stdWorld (g : GenOutcome) : World := ⟨some "param", .ok "secret", g⟩

/-- A minimal valid request body. -/
def promptEvent : Event := mkEvent [("prompt", .str "hola")]

/-- An upstream result with one candidate holding one inline image with data
`"abc"` and no mime type. -/
def oneImagePart : UpstreamPart :=
  { inline_data := some { data := some "abc" } }

def oneImageResult : GenResult :=
  { candidates := some [{ content := some { parts := some [oneImagePart] } }] }

/-- A world whose secret-store response has an unexpected shape, so reading
`response["Parameter"]["Value"]` raises a `KeyError`. -/
def badShapeWorld : World := ⟨some "param", .badShape, .ok {}⟩

/-- A world whose secret store returns the empty string as parameter value. -/
def emptySecretWorld : World := ⟨some "param", .ok "", .ok {}⟩

/-- The request body of the repository test
`test_generation_config_applied_for_allowed_mimetype`. -/
def mimeEvent : Event :=
  mkEvent [("prompt", .str "Describe the image"), ("mimeType", .str "application/json")]

/-- A request supplying a model name with surrounding whitespace. -/
def spacedModelEvent : Event := mkEvent [("prompt", .str "p"), ("model", .str " m ")]

/-- An upstream error whose `code` attribute is the integer `0`. -/
def zeroCodeExc : PyException := { message := "boom", code := some 0 }

/-- An upstream error with no numeric attribute and no leading digits. -/
def plainExc : PyException := { message := "boom" }

/-- An upstream error whose `trace_id` equals its message. -/
def traceEqExc : PyException := { message := "abc", trace_id := some "abc" }

/-- An upstream error with distinct non-blank `details` and `trace_id`. -/
def richExc : PyException :=
  { message := "boom", details := some " info ", trace_id := some " t1 " }

-- Helper lemmas about the embedded functions.

theorem optStrTruthy_of_ne (s : String) (h : s ≠ "") : optStrTruthy (some s) = true := by
  simp [optStrTruthy, h]

theorem get_api_key_warm (k : String) (w : World) (h : k ≠ "") :
    _get_api_key (some k) w = ⟨.ok (some k), some k, 0⟩ := by
  simp [_get_api_key, optStrTruthy, h]

theorem handler_warm (k : String) (w : World) (event : Event) (h : k ≠ "") :
    lambda_handler (some k) w event =
      ⟨.ok (dispatchTry w event).1, some k, 0, (dispatchTry w event).2⟩ := by
  simp [lambda_handler, get_api_key_warm k w h, optStrTruthy, h]

theorem handler_cache_ssm (cached : Option String) (w : World) (event : Event) :
    (lambda_handler cached w event).cache = (_get_api_key cached w).cache ∧
    (lambda_handler cached w event).ssmCalls = (_get_api_key cached w).calls := by
  unfold lambda_handler
  cases ho : (_get_api_key cached w).outcome with
  | error e => simp [ho]
  | ok apiKey => cases hT : optStrTruthy apiKey <;> simp [ho, hT]

theorem resolve_model_obj (fields : List (String × JsonValue)) :
    _resolve_model (.obj fields) = .ok (resolveModelObj fields) := by
  unfold _resolve_model dictGet resolveModelObj
  cases h : (fields.lookup "model").getD .null <;> simp [h]
  split <;> rfl

theorem build_parts_obj (prompt : JsonValue) (fields : List (String × JsonValue)) :
    _build_content_parts prompt (.obj fields) = .ok (contentPartsObj prompt fields) := by
  unfold _build_content_parts dictGet contentPartsObj
  cases h : ((fields.lookup "negativePrompt").getD .null).truthy <;> simp [h]

theorem extract_prompt_obj_falsy (fields : List (String × JsonValue))
    (h : promptFalsy fields) :
    _extract_prompt (.obj fields) =
      .error (.badRequest "El campo \"prompt\" es obligatorio") := by
  unfold _extract_prompt dictGet
  unfold promptFalsy at h
  simp [h]

theorem tryBlock_success (w : World) (fields : List (String × JsonValue))
    (prompt : JsonValue) (result : GenResult)
    (hp : _extract_prompt (.obj fields) = .ok prompt)
    (hg : w.gen = .ok result)
    (hne : _extract_images result ≠ []) :
    tryBlock w (mkEvent fields) =
      ⟨.ok (_build_response 200 (.obj
          [("model", .str (resolveModelObj fields)),
           ("images", .arr ((_extract_images result).map ImagePayload.as_dict))])),
       some ⟨resolveModelObj fields, [("user", contentPartsObj prompt fields)], none⟩⟩ := by
  simp only [tryBlock, mkEvent, _parse_body, hp, resolve_model_obj, build_parts_obj, hg]
  simp [hne]

theorem tryBlock_raises (w : World) (fields : List (String × JsonValue))
    (prompt : JsonValue) (e : PyException)
    (hp : _extract_prompt (.obj fields) = .ok prompt)
    (hg : w.gen = .raises e) :
    tryBlock w (mkEvent fields) =
      ⟨.error (.pyerr e),
       some ⟨resolveModelObj fields, [("user", contentPartsObj prompt fields)], none⟩⟩ := by
  simp only [tryBlock, mkEvent, _parse_body, hp, resolve_model_obj, build_parts_obj, hg]

theorem tryBlock_badPrompt (w : World) (fields : List (String × JsonValue))
    (h : promptFalsy fields) :
    tryBlock w (mkEvent fields) =
      ⟨.error (.badRequest "El campo \"prompt\" es obligatorio"), none⟩ := by
  simp only [tryBlock, mkEvent, _parse_body, extract_prompt_obj_falsy fields h]

theorem handler_success (k : String) (w : World) (fields : List (String × JsonValue))
    (prompt : JsonValue) (result : GenResult)
    (hk : k ≠ "") (hp : _extract_prompt (.obj fields) = .ok prompt)
    (hg : w.gen = .ok result) (hne : _extract_images result ≠ []) :
    lambda_handler (some k) w (mkEvent fields) =
      ⟨.ok (_build_response 200 (.obj
          [("model", .str (resolveModelObj fields)),
           ("images", .arr ((_extract_images result).map ImagePayload.as_dict))])),
       some k, 0,
       some ⟨resolveModelObj fields, [("user", contentPartsObj prompt fields)], none⟩⟩ := by
  rw [handler_warm k w _ hk]
  unfold dispatchTry
  rw [tryBlock_success w fields prompt result hp hg hne]

theorem handler_raises (k : String) (w : World) (fields : List (String × JsonValue))
    (prompt : JsonValue) (e : PyException)
    (hk : k ≠ "") (hp : _extract_prompt (.obj fields) = .ok prompt)
    (hg : w.gen = .raises e) :
    lambda_handler (some k) w (mkEvent fields) =
      ⟨.ok (_build_response (pyOrInt (_derive_status_code_from_exception e) 502)
          (errorPayload e (pyOrInt (_derive_status_code_from_exception e) 502))),
       some k, 0,
       some ⟨resolveModelObj fields, [("user", contentPartsObj prompt fields)], none⟩⟩ := by
  rw [handler_warm k w _ hk]
  unfold dispatchTry
  rw [tryBlock_raises w fields prompt e hp hg]

theorem handler_badPrompt (k : String) (w : World) (fields : List (String × JsonValue))
    (hk : k ≠ "") (h : promptFalsy fields) :
    lambda_handler (some k) w (mkEvent fields) =
      ⟨.ok (_build_response 400
          (.obj [("message", .str "El campo \"prompt\" es obligatorio")])),
       some k, 0, none⟩ := by
  rw [handler_warm k w _ hk]
  unfold dispatchTry
  rw [tryBlock_badPrompt w fields h]

theorem get_api_key_ok (cached : Option String) (w : World) (h : w.ssm ≠ .badShape) :
    ∃ ak, (_get_api_key cached w).outcome = .ok ak := by
  unfold _get_api_key
  by_cases hc : optStrTruthy cached = true
  · simp [hc]
  · simp only [Bool.not_eq_true] at hc
    cases he : w.envParam with
    | none => simp [hc, he]
    | some p =>
      by_cases hp : p = ""
      · simp [hc, he, hp]
      · cases hs : w.ssm with
        | ok v => simp [hc, he, hp, hs]
        | botoError => simp [hc, he, hp, hs]
        | badShape => exact absurd hs h

theorem extract_foldl_inner (parts : List UpstreamPart) (images : List ImagePayload) :
    parts.foldl
      (fun images part =>
        match partImage part with
        | some img => images ++ [img]
        | none => images) images
      = images ++ parts.filterMap partImage := by
  induction parts generalizing images with
  | nil => simp
  | cons p ps ih =>
    cases h : partImage p <;>
      simp [List.foldl_cons, h, ih, List.filterMap_cons]

theorem extract_foldl_outer (cs : List UpstreamCandidate) (images : List ImagePayload) :
    cs.foldl
      (fun images candidate =>
        (candidateParts candidate).foldl
          (fun images part =>
            match partImage part with
            | some img => images ++ [img]
            | none => images)
          images) images
      = images ++ (cs.map (fun c => (candidateParts c).filterMap partImage)).flatten := by
  induction cs generalizing images with
  | nil => simp
  | cons c cs ih =>
    simp only [List.foldl_cons]
    rw [extract_foldl_inner, ih]
    simp [List.append_assoc]

theorem extract_images_eq_spec (result : GenResult) :
    _extract_images result = specImagesConcat result := by
  unfold _extract_images specImagesConcat
  simpa using extract_foldl_outer (result.candidates.getD []) []

theorem partImage_data_ne (part : UpstreamPart) (img : ImagePayload)
    (h : partImage part = some img) : img.data ≠ "" := by
  unfold partImage at h
  split at h
  · exact absurd h (by simp)
  · split at h
    · exact absurd h (by simp)
    · split at h
      · exact absurd h (by simp)
      · rename_i hd
        cases h
        simpa using hd

theorem errorPayload_status (e : PyException) (sc : Int) :
    (errorPayload e sc).lookup "status" = some (.num sc) := rfl

theorem errorPayload_detail (e : PyException) (sc : Int) :
    (errorPayload e sc).lookup "detail" =
      (match e.details with
       | some d =>
         if pyStrip d ≠ "" ∧ pyStrip d ≠ e.message then some (.str (pyStrip d)) else none
       | none => none) := by
  unfold errorPayload JsonValue.lookup
  cases hd : e.details <;> cases ht : e.trace_id <;> simp only [hd, ht] <;>
    try rfl
  all_goals (split <;> (try split) <;> rfl)

theorem errorPayload_trace (e : PyException) (sc : Int) :
    (errorPayload e sc).lookup "traceId" =
      (match e.trace_id with
       | some t => if pyStrip t ≠ "" then some (.str (pyStrip t)) else none
       | none => none) := by
  unfold errorPayload JsonValue.lookup
  cases hd : e.details <;> cases ht : e.trace_id <;> simp only [hd, ht] <;>
    try rfl
  all_goals (split <;> (try split) <;> rfl)

-- Claim C1.

/-- C1: the claim is false as stated.  A body that parses as valid JSON to an
array (hence lacking any prompt field) makes `payload.get("prompt")` raise an
`AttributeError`, which the generic handler maps to 502, not 400. -/
theorem C1_counterexample :
    respStatus (lambda_handler (some "key") (stdWorld (.ok {}))
      (.withBody (.validJson (.arr [])))) = some 502 ∧ (502 : Int) ≠ 400 :=
  ⟨rfl, by decide⟩

/-- C1 (amended): for every inbound event whose body parses to a JSON object
whose "prompt" value is Python-falsy after the string-strip step (missing,
null, false, 0, empty array or object, or a blank string), an invocation with
a usable (non-empty) cached API key returns statusCode 400. -/
theorem C1_amended (k : String) (w : World) (fields : List (String × JsonValue))
    (hk : k ≠ "") (h : promptFalsy fields) :
    respStatus (lambda_handler (some k) w (mkEvent fields)) = some 400 := by
  rw [handler_badPrompt k w fields hk h]
  rfl

/-- Witness instantiating C1 (amended) at a concrete input. -/
theorem C1_witness :
    respStatus (lambda_handler (some "key") (stdWorld (.ok {})) (mkEvent [])) = some 400 :=
  C1_amended "key" (stdWorld (.ok {})) [] (by decide) (by rfl)

-- Claim C2.

/-- C2 (code bug): on the request body
`{"prompt": "Describe the image", "mimeType": "application/json"}` — the
exact input of the repository test
`test_generation_config_applied_for_allowed_mimetype` — the upstream call is
made with no generation-configuration directive: `lambda_handler` never reads
"mimeType"/"mime_type" and builds `request_kwargs` with only `contents`, so
the supplied mime type is silently ignored. -/
theorem C2_code_bug :
    (lambda_handler (some "key") (stdWorld (.ok {})) mimeEvent).genCall =
      some { model := DEFAULT_MODEL,
             contents := [("user", [⟨.str "Describe the image"⟩])],
             generation_config := none } := rfl

-- Claim C3.

/-- C3: the claim is false as stated.  With a cold cache, a configured
parameter name and a malformed secret-store response, the `KeyError` raised
while reading `response["Parameter"]["Value"]` is not a boto error, so
`_get_api_key` does not swallow it, and `_get_api_key()` runs before the
`try` block of `lambda_handler`: the exception propagates uncaught. -/
theorem C3_counterexample :
    (lambda_handler none badShapeWorld promptEvent).outcome =
      .error { message := "KeyError: \x27Parameter\x27" } := rfl

/-- C3 (amended): whenever the secret store does not return a malformed
response, every exception is caught and the handler returns a
ResponseEnvelope (exceptions inside the request-handling block are always
caught; only a non-boto exception during credential resolution escapes). -/
theorem C3_amended (cached : Option String) (w : World) (event : Event)
    (h : w.ssm ≠ .badShape) :
    ∃ resp, (lambda_handler cached w event).outcome = .ok resp := by
  obtain ⟨ak, hak⟩ := get_api_key_ok cached w h
  simp only [lambda_handler, hak]
  cases hT : optStrTruthy ak <;> simp [hT]

/-- Witness instantiating C3 (amended) at a concrete input. -/
theorem C3_witness :
    ∃ resp, (lambda_handler none (stdWorld (.ok {})) Event.empty).outcome = .ok resp :=
  C3_amended none (stdWorld (.ok {})) Event.empty (by decide)

-- Claim C4.

/-- C4: with a usable key, a valid object body, and a successful upstream
call producing at least one inline-image part, the 200 response's images
array is exactly the concatenation — in candidate order then part order —
of the per-part `{mimeType, data}` entries, data verbatim, mime type as
provided upstream with "image/png" fallback, no deduplication and no
filtering by mime type (`specImagesConcat` spells out that concatenation). -/
theorem C4_images_concatenation (k : String) (w : World)
    (fields : List (String × JsonValue)) (prompt : JsonValue) (result : GenResult)
    (hk : k ≠ "") (hp : _extract_prompt (.obj fields) = .ok prompt)
    (hg : w.gen = .ok result) (hne : specImagesConcat result ≠ []) :
    respStatus (lambda_handler (some k) w (mkEvent fields)) = some 200 ∧
    respField (lambda_handler (some k) w (mkEvent fields)) "images" =
      some (.arr ((specImagesConcat result).map ImagePayload.as_dict)) := by
  have hne' : _extract_images result ≠ [] := by
    rw [extract_images_eq_spec]; exact hne
  rw [handler_success k w fields prompt result hk hp hg hne']
  refine ⟨rfl, ?_⟩
  rw [← extract_images_eq_spec result]
  rfl

/-- Witness instantiating C4 at a concrete input. -/
theorem C4_witness :
    respStatus (lambda_handler (some "key") (stdWorld (.ok oneImageResult)) promptEvent) =
      some 200 ∧
    respField (lambda_handler (some "key") (stdWorld (.ok oneImageResult)) promptEvent)
        "images" = some (.arr ((specImagesConcat oneImageResult).map ImagePayload.as_dict)) :=
  C4_images_concatenation "key" (stdWorld (.ok oneImageResult)) [("prompt", .str "hola")]
    (.str "hola") oneImageResult (by decide) rfl rfl (by decide)

-- Claim C5.

/-- C5: the claim is false as stated.  For an error whose `code` attribute is
the integer 0, the claim requires response status 0 (the first integer value
among the attributes), but `_derive_status_code_from_exception(error) or 502`
treats 0 as falsy and the response status is 502. -/
theorem C5_counterexample :
    _derive_status_code_from_exception zeroCodeExc = some 0 ∧
    respStatus (lambda_handler (some "key") (stdWorld (.raises zeroCodeExc)) promptEvent) =
      some 502 ∧ (502 : Int) ≠ 0 :=
  ⟨rfl, rfl, by decide⟩

/-- C5 (amended): the response status is the derived code (first integer
attribute among code/status_code/status/http_status, else the leading
three-digit number of the message) unless that code is absent or zero, in
which case 502; and the payload's status field equals the statusCode.  In
particular an error with no numeric attribute and no leading code gives 502
with payload status 502 (see the witness). -/
theorem C5_amended (k : String) (w : World) (fields : List (String × JsonValue))
    (prompt : JsonValue) (e : PyException)
    (hk : k ≠ "") (hp : _extract_prompt (.obj fields) = .ok prompt)
    (hg : w.gen = .raises e) :
    respStatus (lambda_handler (some k) w (mkEvent fields)) =
      some (pyOrInt (_derive_status_code_from_exception e) 502) ∧
    respField (lambda_handler (some k) w (mkEvent fields)) "status" =
      some (.num (pyOrInt (_derive_status_code_from_exception e) 502)) := by
  rw [handler_raises k w fields prompt e hk hp hg]
  exact ⟨rfl, errorPayload_status e _⟩

/-- Witness instantiating C5 (amended): an error exposing no numeric code
and no leading three-digit code yields 502 with payload status 502. -/
theorem C5_witness :
    respStatus (lambda_handler (some "key") (stdWorld (.raises plainExc)) promptEvent) =
      some 502 ∧
    respField (lambda_handler (some "key") (stdWorld (.raises plainExc)) promptEvent)
        "status" = some (.num 502) :=
  C5_amended "key" (stdWorld (.raises plainExc)) [("prompt", .str "hola")] (.str "hola")
    plainExc (by decide) rfl rfl

-- Claim C6.

/-- C6: the claim is false as stated.  When the first (successful) lookup
returns the empty string, the value is cached but the cache is Python-falsy
(`if _CACHED_API_KEY`), so the next invocation performs another secret-store
call: two consecutive invocations with identical input perform 2 calls. -/
theorem C6_counterexample :
    (lambda_handler none emptySecretWorld promptEvent).ssmCalls +
      (lambda_handler (lambda_handler none emptySecretWorld promptEvent).cache
          emptySecretWorld promptEvent).ssmCalls = 2 ∧ (2 : Nat) ≠ 1 :=
  ⟨rfl, by decide⟩

/-- C6 (amended): after a first lookup that returns a NON-EMPTY key, the key
is cached; that invocation performs exactly one secret-store call and any
later invocation in the same process performs zero. -/
theorem C6_amended (p v : String) (g : GenOutcome) (e₁ e₂ : Event) (w₂ : World)
    (hp : p ≠ "") (hv : v ≠ "") :
    (lambda_handler none ⟨some p, .ok v, g⟩ e₁).ssmCalls = 1 ∧
    (lambda_handler none ⟨some p, .ok v, g⟩ e₁).cache = some v ∧
    (lambda_handler (lambda_handler none ⟨some p, .ok v, g⟩ e₁).cache w₂ e₂).ssmCalls = 0 := by
  have h1 : _get_api_key none ⟨some p, .ok v, g⟩ = ⟨.ok (some v), some v, 1⟩ := by
    simp [_get_api_key, optStrTruthy, hp]
  obtain ⟨hc1, hs1⟩ := handler_cache_ssm none ⟨some p, .ok v, g⟩ e₁
  rw [h1] at hc1 hs1
  refine ⟨hs1, hc1, ?_⟩
  rw [hc1]
  obtain ⟨hc2, hs2⟩ := handler_cache_ssm (some v) w₂ e₂
  rw [get_api_key_warm v w₂ hv] at hs2
  exact hs2

/-- Witness instantiating C6 (amended) at a concrete input. -/
theorem C6_witness :
    (lambda_handler none (stdWorld (.ok {})) Event.empty).ssmCalls = 1 ∧
    (lambda_handler none (stdWorld (.ok {})) Event.empty).cache = some "secret" ∧
    (lambda_handler (lambda_handler none (stdWorld (.ok {})) Event.empty).cache
        (stdWorld (.ok {})) Event.empty).ssmCalls = 0 :=
  C6_amended "param" "secret" (.ok {}) Event.empty Event.empty (stdWorld (.ok {}))
    (by decide) (by decide)

-- Claim C7.

/-- C7: the claim is false as stated.  The request supplies the non-empty
model string " m ", but `_resolve_model` strips it: both the upstream call
and the response carry "m", so the supplied string never appears verbatim. -/
theorem C7_counterexample :
    (lambda_handler (some "key") (stdWorld (.ok oneImageResult)) spacedModelEvent).genCall =
      some { model := "m", contents := [("user", [⟨.str "p"⟩])],
             generation_config := none } ∧
    respField (lambda_handler (some "key") (stdWorld (.ok oneImageResult)) spacedModelEvent)
        "model" = some (.str "m") ∧
    ("m" : String) ≠ " m " :=
  ⟨rfl, rfl, by decide⟩

/-- C7 (amended): for a "model" value that is a string with non-blank strip,
the STRIPPED model string appears verbatim in both the upstream call and the
200 response's model field. -/
theorem C7_amended (k m : String) (w : World) (fields : List (String × JsonValue))
    (prompt : JsonValue) (result : GenResult)
    (hk : k ≠ "") (hm : fields.lookup "model" = some (.str m)) (hms : pyStrip m ≠ "")
    (hp : _extract_prompt (.obj fields) = .ok prompt)
    (hg : w.gen = .ok result) (hne : _extract_images result ≠ []) :
    (lambda_handler (some k) w (mkEvent fields)).genCall =
      some { model := pyStrip m,
             contents := [("user", contentPartsObj prompt fields)],
             generation_config := none } ∧
    respField (lambda_handler (some k) w (mkEvent fields)) "model" =
      some (.str (pyStrip m)) := by
  have hr : resolveModelObj fields = pyStrip m := by
    simp [resolveModelObj, hm, hms]
  rw [handler_success k w fields prompt result hk hp hg hne, hr]
  exact ⟨rfl, rfl⟩

/-- Witness instantiating C7 (amended) at a concrete input. -/
theorem C7_witness :
    (lambda_handler (some "key") (stdWorld (.ok oneImageResult))
        (mkEvent [("prompt", .str "p"), ("model", .str "gemini-1.5-pro")])).genCall =
      some { model := "gemini-1.5-pro", contents := [("user", [⟨.str "p"⟩])],
             generation_config := none } ∧
    respField (lambda_handler (some "key") (stdWorld (.ok oneImageResult))
        (mkEvent [("prompt", .str "p"), ("model", .str "gemini-1.5-pro")])) "model" =
      some (.str "gemini-1.5-pro") :=
  C7_amended "key" "gemini-1.5-pro" (stdWorld (.ok oneImageResult))
    [("prompt", .str "p"), ("model", .str "gemini-1.5-pro")] (.str "p") oneImageResult
    (by decide) rfl (by decide) rfl rfl (by decide)

-- Claim C8.

/-- C8: the claim is false as stated.  For an error whose `trace_id` equals
its message ("abc"), the payload still includes traceId "abc": the code only
checks that `trace_id` is a non-blank string, never that it differs from the
message (that distinctness check exists only for `details`). -/
theorem C8_counterexample :
    respField (lambda_handler (some "key") (stdWorld (.raises traceEqExc)) promptEvent)
        "traceId" = some (.str "abc") ∧
    traceEqExc.message = "abc" :=
  ⟨rfl, rfl⟩

/-- C8 (amended): `detail` is included exactly when `details` is a string
that is non-blank after strip and whose strip differs from the message;
`traceId` is included exactly when `trace_id` is a string that is non-blank
after strip — with no distinctness-from-message requirement. -/
theorem C8_amended (k : String) (w : World) (fields : List (String × JsonValue))
    (prompt : JsonValue) (e : PyException)
    (hk : k ≠ "") (hp : _extract_prompt (.obj fields) = .ok prompt)
    (hg : w.gen = .raises e) :
    respField (lambda_handler (some k) w (mkEvent fields)) "detail" =
      (match e.details with
       | some d =>
         if pyStrip d ≠ "" ∧ pyStrip d ≠ e.message then some (.str (pyStrip d)) else none
       | none => none) ∧
    respField (lambda_handler (some k) w (mkEvent fields)) "traceId" =
      (match e.trace_id with
       | some t => if pyStrip t ≠ "" then some (.str (pyStrip t)) else none
       | none => none) := by
  rw [handler_raises k w fields prompt e hk hp hg]
  exact ⟨errorPayload_detail e (pyOrInt (_derive_status_code_from_exception e) 502),
         errorPayload_trace e (pyOrInt (_derive_status_code_from_exception e) 502)⟩

/-- Witness instantiating C8 (amended) at a concrete input. -/
theorem C8_witness :
    respField (lambda_handler (some "key") (stdWorld (.raises richExc)) promptEvent)
        "detail" = some (.str "info") ∧
    respField (lambda_handler (some "key") (stdWorld (.raises richExc)) promptEvent)
        "traceId" = some (.str "t1") :=
  C8_amended "key" (stdWorld (.raises richExc)) [("prompt", .str "hola")] (.str "hola")
    richExc (by decide) rfl rfl

-- Claim C9.

/-- C9: the claim is false as stated.  On a cold process with a configured
parameter, an invocation whose prompt is blank is rejected with 400 — but
only after `_get_api_key()` has already performed one secret-store call,
because credential resolution runs before body parsing. -/
theorem C9_counterexample :
    respStatus (lambda_handler none (stdWorld (.ok {}))
        (mkEvent [("prompt", .str " ")])) = some 400 ∧
    (lambda_handler none (stdWorld (.ok {}))
        (mkEvent [("prompt", .str " ")])).ssmCalls = 1 ∧
    (1 : Nat) ≠ 0 :=
  ⟨rfl, rfl, by decide⟩

/-- C9 (amended): a request whose prompt is falsy after strip is rejected
with 400 and no upstream generation call occurs; credential resolution,
however, happens first and may perform a secret-store call. -/
theorem C9_amended (k : String) (w : World) (fields : List (String × JsonValue))
    (hk : k ≠ "") (h : promptFalsy fields) :
    respStatus (lambda_handler (some k) w (mkEvent fields)) = some 400 ∧
    (lambda_handler (some k) w (mkEvent fields)).genCall = none := by
  rw [handler_badPrompt k w fields hk h]
  exact ⟨rfl, rfl⟩

/-- Witness instantiating C9 (amended) at a concrete input. -/
theorem C9_witness :
    respStatus (lambda_handler (some "key2") (stdWorld (.ok {}))
        (mkEvent [("prompt", .str "  ")])) = some 400 ∧
    (lambda_handler (some "key2") (stdWorld (.ok {}))
        (mkEvent [("prompt", .str "  ")])).genCall = none :=
  C9_amended "key2" (stdWorld (.ok {})) [("prompt", .str "  ")] (by decide) (by rfl)

-- Claim C10.

/-- C10: a part whose inline-data object is present but whose data payload is
absent or the empty string contributes no image; consequently every entry of
the extracted images list (hence of the images array of a 200 response) has
a non-empty data string. -/
theorem C10_nonempty_data (result : GenResult) (img : ImagePayload)
    (h : img ∈ _extract_images result) : img.data ≠ "" := by
  rw [extract_images_eq_spec] at h
  unfold specImagesConcat at h
  rw [List.mem_flatten] at h
  obtain ⟨l, hl, hm⟩ := h
  rw [List.mem_map] at hl
  obtain ⟨c, -, rfl⟩ := hl
  rw [List.mem_filterMap] at hm
  obtain ⟨part, -, hpi⟩ := hm
  exact partImage_data_ne part img hpi

/-- Witness instantiating C10 at a concrete input. -/
theorem C10_witness : (⟨"image/png", "abc"⟩ : ImagePayload).data ≠ "" :=
  C10_nonempty_data oneImageResult ⟨"image/png", "abc"⟩ (by decide)

end GeminiApp
